import Mathlib

/-!
# Verification of the libE57Format CompressedVector reader core

Shallow embedding of the reader-side code of libE57Format:
* `CompressedVectorReaderImpl` (reader orchestration, `src/unnamed/part_001`)
* `SourceDestBuffer::checkInvariant` (`src/src/SourceDestBuffer.cpp`)

Machine integers (`uint64_t`, `uint16_t`, `size_t`) are modelled as `Nat`;
none of the verified paths rely on wrap-around, and `E57_UINT64_MAX` is kept
as the explicit sentinel constant the source uses.  Exceptions are modelled
with `Except E57Error`.  Parts of the repository that the reader calls but
whose sources are not in this excerpt (the `DecodeChannel` predicates, the
decoders, `Prototype::checkBuffers`, `SourceDestBufferImpl::checkCompatible`
and SDB construction, `ImageFileImpl::decrReaderCount`) are modelled from the
specification; each such definition carries a doc comment saying so.
-/

namespace E57

/-- Sentinel constant `E57_UINT64_MAX` of the source (`UINT64_MAX`). -/
def E57_UINT64_MAX : Nat := 2 ^ 64 - 1

/-- Packet-type tag of a data packet (`Packet.h`; the concrete numeral is
irrelevant: the code only ever compares `header.packetType` with it). -/
def DATA_PACKET : Nat := 1

/-- Error identifiers of the `E57Exception`s thrown on the verified paths
(`E57Exception.h` error codes). -/
inductive E57Error where
  | badApiArgument
  | badBuffer
  | badPathName
  | buffersNotCompatible
  | badCVPacket
  | imageFileNotOpen
  | readerNotOpen
  | notImplemented
  | invarianceViolation
  | internal
deriving DecidableEq, Repr

/-- Header common to all packets: `{u8 packetType; u8 flags; u16
packetLogicalLengthMinus1}` (the flags byte plays no role in the reader
paths embedded here). -/
structure PacketHeader where
  packetType : Nat
  packetLogicalLengthMinus1 : Nat
deriving DecidableEq, Repr

/-- View of the packet stored at a logical offset: its header plus
`DataPacket::getBytestreamBufferLength(bytestreamNumber)` (the per-stream
payload length table).  Payload bytes themselves are not modelled: decoders
are abstract and only consume byte counts. -/
structure DataPacket where
  header : PacketHeader
  bytestreamBufferLength : Nat → Nat

/-- The binary section contents as the packet cache exposes them:
`cache_->lock(off, p)` reinterprets the bytes at logical offset `off` as a
packet.  Locking cannot fail in the embedded model (cache misses are
transparent reads). -/
def PacketFile : Type := Nat → DataPacket

/-- Embeds `CompressedVectorReaderImpl::findNextDataPacket` (part_001:482-515):
starting at `next`, skip packets by `packetLogicalLengthMinus1 + 1` until a
packet with `packetType == DATA_PACKET` is found, or the scan reaches
`sectionEndLogicalOffset_`, in which case the failure sentinel
`E57_UINT64_MAX` is returned.  Termination: each skip advances by at least
one byte, bounded by `sectionEnd`. -/
def findNextDataPacket (file : PacketFile) (sectionEnd : Nat) (next : Nat) : Nat :=
  if h : next < sectionEnd then
    let dpkt := file next
    if dpkt.header.packetType = DATA_PACKET then
      next
    else
      findNextDataPacket file sectionEnd (next + dpkt.header.packetLogicalLengthMinus1 + 1)
  else
    E57_UINT64_MAX
termination_by sectionEnd - next
decreasing_by omega

/-- The scan relation of `findNextDataPacket`: `ScanReaches file sectionEnd s
t` holds when the scan starting at offset `s` passes through offset `t`,
every intermediate hop skipping a non-Data packet by its header length. -/
inductive ScanReaches (file : PacketFile) (sectionEnd : Nat) : Nat → Nat → Prop where
  | refl (s : Nat) : ScanReaches file sectionEnd s s
  | step (s t : Nat) (hlt : s < sectionEnd)
      (hnd : (file s).header.packetType ≠ DATA_PACKET)
      (hr : ScanReaches file sectionEnd
        (s + (file s).header.packetLogicalLengthMinus1 + 1) t) :
      ScanReaches file sectionEnd s t

/-! ## Source/Dest buffers -/

/-- Embeds `MemoryRepresentation` (`SourceDestBuffer.h`): the closed set of declared
in-memory element types of a `SourceDestBuffer`. -/
inductive MemoryRepresentation where
  | Int8 | UInt8 | Int16 | UInt16 | Int32 | UInt32 | Int64
  | Bool | Real32 | Real64 | UString
deriving DecidableEq, Repr

/-- The per-representation minimum stride computed by the `switch` in
`SourceDestBuffer::checkInvariant` (SourceDestBuffer.cpp:41-80).
`sizeofUString` abstracts the platform constant `sizeof(ustring)`. -/
def minStride (sizeofUString : Nat) : MemoryRepresentation → Nat
  | .Int8 => 1
  | .UInt8 => 1
  | .Int16 => 2
  | .UInt16 => 2
  | .Int32 => 4
  | .UInt32 => 4
  | .Int64 => 8
  | .Bool => 1
  | .Real32 => 4
  | .Real64 => 8
  | .UString => sizeofUString

/-- The externally visible attributes of a `SourceDestBuffer`
(`SourceDestBufferImpl`): the prototype path, the declared in-memory
representation, element capacity, byte stride, and the identity of the
user-owned memory it points at (`buffer` stands for the raw pointer; only
its identity matters to the reader paths).  The mutable write cursor
(`nextIndex`) lives in the decode channel that owns the buffer during a
read. -/
structure SDB where
  pathName : String
  memoryRepresentation : MemoryRepresentation
  capacity : Nat
  stride : Nat
  buffer : Nat
deriving DecidableEq, Repr

/-- Embeds `SourceDestBuffer::checkInvariant` (SourceDestBuffer.cpp:38-86): compute
`min_stride` from the representation and throw `ErrorInvarianceViolation`
when `stride() < min_stride`.  The C++ `default:` branch (an enum value
outside the declared set) is unrepresentable in the closed Lean type. -/
def checkInvariant (sizeofUString : Nat) (b : SDB) : Except E57Error Unit :=
  let min_stride := minStride sizeofUString b.memoryRepresentation
  if b.stride < min_stride then
    .error .invarianceViolation
  else
    .ok ()

/-- Modelled from the spec: `SourceDestBufferImpl`'s constructor and
`setTypeInfo` are not under src/.  Spec §3: "stride: byte step between
consecutive elements; must be ≥ element size; default = element size";
§4.4: "SDB construction validates only: path syntactically legal; stride ≥
element size; capacity > 0"; §6: "stride=0 means use element size". -/
def mkSourceDestBuffer (sizeofUString : Nat) (pathName : String)
    (rep : MemoryRepresentation) (buffer capacity strideArg : Nat) :
    Except E57Error SDB :=
  let stride := if strideArg = 0 then minStride sizeofUString rep else strideArg
  if capacity = 0 then
    .error .badApiArgument
  else if stride < minStride sizeofUString rep then
    .error .badApiArgument
  else
    .ok { pathName := pathName, memoryRepresentation := rep,
          capacity := capacity, stride := stride, buffer := buffer }

/-- The compatibility predicate behind `checkCompatible` (spec §4.5): path,
representation, capacity and stride agree; the buffer pointer is free to
differ. -/
def sdbCompatible (oldBuf newBuf : SDB) : Prop :=
  oldBuf.pathName = newBuf.pathName ∧
  oldBuf.memoryRepresentation = newBuf.memoryRepresentation ∧
  oldBuf.capacity = newBuf.capacity ∧
  oldBuf.stride = newBuf.stride

instance (oldBuf newBuf : SDB) : Decidable (sdbCompatible oldBuf newBuf) := by
  unfold sdbCompatible
  infer_instance

/-- Modelled from the spec: `SourceDestBufferImpl::checkCompatible` is not
under src/.  Spec §4.5: "call `checkCompatible` pairwise (path,
representation, capacity, stride match; buffer pointer may change) ...
incompatibilities are errors", §7: "BuffersNotCompatible — incompatible
rebind across reads". -/
def checkCompatible (oldBuf newBuf : SDB) : Except E57Error Unit :=
  if sdbCompatible oldBuf newBuf then
    .ok ()
  else
    .error .buffersNotCompatible

/-- Modelled from the spec: `Prototype`/`CompressedVectorNodeImpl`'s
`checkBuffers` is not under src/.  Spec §4.2: "`checkBuffers(SDBs,
allowMissing)` verifies that each SDB path resolves to a terminal, no two
SDBs share a path, and — for reads — that the set of paths is a subset (if
allowMissing) or exactly equal to the set of terminals (if !allowMissing)".
The prototype is abstracted to its list of terminal path names. -/
def checkBuffers (protoTerminals : List String) (dbufs : List SDB)
    (allowMissing : Bool) : Except E57Error Unit :=
  if ¬ dbufs.all (fun d => protoTerminals.contains d.pathName) then
    .error .badPathName
  else if ¬ (dbufs.map (fun d => d.pathName)).Nodup then
    .error .badBuffer
  else if ¬ allowMissing
      ∧ ¬ protoTerminals.all (fun p => dbufs.any (fun d => d.pathName = p)) then
    .error .badBuffer
  else
    .ok ()

/-- The pairwise `checkCompatible` loop of
`CompressedVectorReaderImpl::setBuffers` (part_001:192-199), over the two
buffer lists in index order. -/
def checkCompatiblePairs : List SDB → List SDB → Except E57Error Unit
  | [], _ => .ok ()
  | _, [] => .ok ()
  | oldBuf :: olds, newBuf :: news =>
    match checkCompatible oldBuf newBuf with
    | .error e => .error e
    | .ok () => checkCompatiblePairs olds news

/-- Embeds `CompressedVectorReaderImpl::setBuffers` (part_001:175-203): run
`checkBuffers(dbufs, allowMissing=true)`; if a previous list `dbufs_` was
bound, require the same size (else `BuffersNotCompatible`) and check each
pair with `checkCompatible`; finally bind the new list.  Returns the new
value of the `dbufs_` member. -/
def setBuffers (protoTerminals : List String) (dbufsBound : List SDB)
    (dbufs : List SDB) : Except E57Error (List SDB) :=
  match checkBuffers protoTerminals dbufs true with
  | .error e => .error e
  | .ok () =>
    if dbufsBound.isEmpty then
      .ok dbufs
    else if dbufsBound.length ≠ dbufs.length then
      .error .buffersNotCompatible
    else
      match checkCompatiblePairs dbufsBound dbufs with
      | .error e => .error e
      | .ok () => .ok dbufs

/-! ## Decode channels and the abstract decoder -/

/-- Abstract model of a per-bytestream `Decoder` together with the effect
its `inputProcess` has on the bound buffer's write cursor.  `σ` is the
decoder's internal state (bit queues etc.); the concrete codecs are not
under src/, so the decoder is a parameter of every reader operation.
`inputProcess s nextIndex availableLength` returns the new decoder state,
the new value of the bound SDB's write cursor, and the number of input
bytes consumed (the value `Decoder::inputProcess` returns).  `needsInput`
is the decoder-side half of the spec's input-blocked predicate: "decoder
cannot emit more without more input". -/
structure DecoderModel (σ : Type) where
  inputProcess : σ → Nat → Nat → σ × Nat × Nat
  needsInput : σ → Bool

/-- Embeds `DecodeChannel` (DecodeChannel.h): one SDB, one decoder, the bytestream
number, and the cursors over the packet stream.  `dbufNextIndex` and
`dbufCapacity` are the write cursor and capacity of the bound
`SourceDestBufferImpl` (the channel's `dbuf`). -/
structure DecodeChannel (σ : Type) where
  dbufNextIndex : Nat
  dbufCapacity : Nat
  decoder : σ
  bytestreamNumber : Nat
  currentPacketLogicalOffset : Nat
  currentBytestreamBufferIndex : Nat
  currentBytestreamBufferLength : Nat
  inputFinished : Bool
deriving DecidableEq, Repr

/-- Modelled from the spec: `DecodeChannel::isOutputBlocked` is not under
src/.  Spec §3: "output-blocked: the decoder's destination SDB is full
(cursor = capacity)". -/
def DecodeChannel.isOutputBlocked (c : DecodeChannel σ) : Bool :=
  c.dbufNextIndex == c.dbufCapacity

/-- Modelled from the spec: `DecodeChannel::isInputBlocked` is not under
src/.  Spec §3: "input-blocked (for current packet):
`currentBytestreamBufferIndex ≥ currentBytestreamBufferLength` AND decoder
cannot emit more without more input". -/
def DecodeChannel.isInputBlocked (M : DecoderModel σ) (c : DecodeChannel σ) : Bool :=
  decide (c.currentBytestreamBufferLength ≤ c.currentBytestreamBufferIndex)
    && M.needsInput c.decoder

/-- Embeds `_alreadyReadPacket` (part_001:330-333): a channel is skipped for packet
`currentPacketLogicalOffset` when it is draining a different packet or its
output is blocked. -/
def _alreadyReadPacket (channel : DecodeChannel σ)
    (currentPacketLogicalOffset : Nat) : Bool :=
  (channel.currentPacketLogicalOffset != currentPacketLogicalOffset)
    || channel.isOutputBlocked

/-- The test at part_001:295 (`!chan->isOutputBlocked() &&
!chan->inputFinished`): the spec's "hungry" predicate over a channel (§4.5
step 4a: "neither output-blocked nor inputFinished"). -/
def liveChannel (chan : DecodeChannel σ) : Prop :=
  ¬ chan.isOutputBlocked ∧ ¬ chan.inputFinished

instance (chan : DecodeChannel σ) : Decidable (liveChannel chan) := by
  unfold liveChannel
  infer_instance

/-- One iteration of the channel scan of
`CompressedVectorReaderImpl::earliestPacketNeededForInput`
(part_001:289-306): a channel that is neither output-blocked nor
`inputFinished` lowers the running minimum when its
`currentPacketLogicalOffset` is strictly smaller. -/
def earliestStep (earliest : Nat) (chan : DecodeChannel σ) : Nat :=
  if liveChannel chan then
    if chan.currentPacketLogicalOffset < earliest then
      chan.currentPacketLogicalOffset
    else earliest
  else earliest

/-- Embeds `CompressedVectorReaderImpl::earliestPacketNeededForInput`
(part_001:282-319): the smallest `currentPacketLogicalOffset` among channels
that are neither output-blocked nor `inputFinished`; `E57_UINT64_MAX` when
there is none (or none is strictly below the sentinel). -/
def earliestPacketNeededForInput (channels : List (DecodeChannel σ)) : Nat :=
  channels.foldl earliestStep E57_UINT64_MAX

/-! ## Feeding a packet to the decoders -/

/-- One iteration of the first channel loop of
`CompressedVectorReaderImpl::feedPacketToDecoders` (part_001:355-414):
channels that already read the packet are skipped; otherwise the channel's
slice `[bsbStart + currentBytestreamBufferIndex, bsbLength)` is handed to
`Decoder::inputProcess` and `currentBytestreamBufferIndex` advances by the
count consumed.  Returns the updated channel and whether it is now
input-blocked in this packet (the contribution to
`anyChannelHasExhaustedPacket`). -/
def feedChannel (M : DecoderModel σ) (dpkt : DataPacket)
    (currentPacketLogicalOffset : Nat) (channel : DecodeChannel σ) :
    Except E57Error (DecodeChannel σ × Bool) :=
  if _alreadyReadPacket channel currentPacketLogicalOffset then
    .ok (channel, false)
  else
    let bsbLength := dpkt.bytestreamBufferLength channel.bytestreamNumber
    if bsbLength < channel.currentBytestreamBufferIndex then
      .error .internal
    else
      let uneatenLength := bsbLength - channel.currentBytestreamBufferIndex
      if bsbLength < channel.currentBytestreamBufferIndex + uneatenLength then
        .error .internal
      else
        let r := M.inputProcess channel.decoder channel.dbufNextIndex uneatenLength
        let channel := { channel with
          decoder := r.1
          dbufNextIndex := r.2.1
          currentBytestreamBufferIndex :=
            channel.currentBytestreamBufferIndex + r.2.2 }
        .ok (channel, channel.isInputBlocked M)

/-- The first channel loop of `feedPacketToDecoders` over the whole channel
list, accumulating `anyChannelHasExhaustedPacket`. -/
def feedLoop (M : DecoderModel σ) (dpkt : DataPacket)
    (currentPacketLogicalOffset : Nat) :
    List (DecodeChannel σ) → Except E57Error (List (DecodeChannel σ) × Bool)
  | [] => .ok ([], false)
  | channel :: channels =>
    match feedChannel M dpkt currentPacketLogicalOffset channel with
    | .error e => .error e
    | .ok (channel, exhausted) =>
      match feedLoop M dpkt currentPacketLogicalOffset channels with
      | .error e => .error e
      | .ok (channels, any) => .ok (channel :: channels, exhausted || any)

/-- The advance step of `feedPacketToDecoders` (part_001:434-454): channels
still on the drained packet move to the new data packet, reset their
payload cursor and refresh their payload length from the new packet's
per-stream table. -/
def advanceChannel (dpkt2 : DataPacket) (currentPacketLogicalOffset : Nat)
    (nextPacketLogicalOffset : Nat) (channel : DecodeChannel σ) :
    DecodeChannel σ :=
  if _alreadyReadPacket channel currentPacketLogicalOffset then
    channel
  else
    { channel with
      currentPacketLogicalOffset := nextPacketLogicalOffset
      currentBytestreamBufferIndex := 0
      currentBytestreamBufferLength :=
        dpkt2.bytestreamBufferLength channel.bytestreamNumber }

/-- The end-of-section step of `feedPacketToDecoders` (part_001:463-478):
channels still on the drained packet become `inputFinished`. -/
def finishChannel (currentPacketLogicalOffset : Nat)
    (channel : DecodeChannel σ) : DecodeChannel σ :=
  if _alreadyReadPacket channel currentPacketLogicalOffset then
    channel
  else
    { channel with inputFinished := true }

/-- Embeds `CompressedVectorReaderImpl::feedPacketToDecoders` (part_001:335-480).
The packet at `currentPacketLogicalOffset` must be a data packet (fatal
`Internal` otherwise); the channels reading it are fed; when some channel
exhausted its slice, `nextPacketLogicalOffset` is the end of this packet,
else it stays at the `E57_UINT64_MAX` sentinel (the per-channel assignment
at part_001:412 always stores the same value, so it is computed once here).
`findNextDataPacket` is then called unconditionally (part_001:417); if no
channel is exhausted the function returns, otherwise the affected channels
either advance to the found data packet or are marked finished when the
scan ran past `sectionEndLogicalOffset_`. -/
def feedPacketToDecoders (M : DecoderModel σ) (file : PacketFile)
    (sectionEndLogicalOffset : Nat) (currentPacketLogicalOffset : Nat)
    (channels : List (DecodeChannel σ)) :
    Except E57Error (List (DecodeChannel σ)) :=
  let dpkt := file currentPacketLogicalOffset
  if dpkt.header.packetType ≠ DATA_PACKET then
    .error .internal
  else
    match feedLoop M dpkt currentPacketLogicalOffset channels with
    | .error e => .error e
    | .ok (channels, anyChannelHasExhaustedPacket) =>
      let nextPacketLogicalOffset :=
        if anyChannelHasExhaustedPacket then
          currentPacketLogicalOffset + dpkt.header.packetLogicalLengthMinus1 + 1
        else E57_UINT64_MAX
      let nextPacketLogicalOffset :=
        findNextDataPacket file sectionEndLogicalOffset nextPacketLogicalOffset
      if ¬ anyChannelHasExhaustedPacket then
        .ok channels
      else if nextPacketLogicalOffset < E57_UINT64_MAX then
        let dpkt2 := file nextPacketLogicalOffset
        .ok (channels.map
          (advanceChannel dpkt2 currentPacketLogicalOffset nextPacketLogicalOffset))
      else if sectionEndLogicalOffset ≤ nextPacketLogicalOffset then
        .ok (channels.map (finishChannel currentPacketLogicalOffset))
      else
        .ok channels

/-! ## Reader state and the public reader operations -/

/-- The mutable state of a `CompressedVectorReaderImpl` that the embedded
operations touch: `isOpen_`, the bound buffer list `dbufs_`, the decode
channels `channels_`, `sectionEndLogicalOffset_`, and whether the packet
cache `cache_` is currently allocated.  The `SourceDestBuffer` handles in
`dbufs_` and in the channels share one `SourceDestBufferImpl` each (set up
at construction), so the write cursors live in the channels and the
attribute records live in `dbufs`. -/
structure ReaderState (σ : Type) where
  isOpen : Bool
  dbufs : List SDB
  channels : List (DecodeChannel σ)
  sectionEndLogicalOffset : Nat
  cacheAllocated : Bool

/-- Embeds `CompressedVectorReaderImpl::checkImageFileOpen` (part_001:560-564): the
body is empty (the source reads `// unimplemented...`), so the check
succeeds whatever the state of the owning image file.  The argument records
the `ImageFile::isOpen()` state the check was supposed to consult. -/
def checkImageFileOpen (imageFileIsOpen : Bool) : Except E57Error Unit :=
  .ok ()

/-- Embeds `CompressedVectorReaderImpl::checkReaderOpen` (part_001:566-575): throw
`E57_ERROR_READER_NOT_OPEN` when `isOpen_` is false. -/
def checkReaderOpen (st : ReaderState σ) : Except E57Error Unit :=
  if ¬ st.isOpen then .error .readerNotOpen else .ok ()

/-- The rewind step of `read()` (part_001:227-230): every bound buffer's
write cursor returns to zero (`dbuf.impl()->rewind()`; the channel's `dbuf`
aliases the bound buffer, so the cursor in the channel is reset). -/
def rewindChannel (channel : DecodeChannel σ) : DecodeChannel σ :=
  { channel with dbufNextIndex := 0 }

/-- The drain step of `read()` (part_001:235-238):
`channel.decoder->inputProcess(nullptr, 0)` lets the decoder spill queued
values into the freshly emptied buffer; the returned consumed count is
discarded and `currentBytestreamBufferIndex` is untouched. -/
def drainChannel (M : DecoderModel σ) (channel : DecodeChannel σ) :
    DecodeChannel σ :=
  let r := M.inputProcess channel.decoder channel.dbufNextIndex 0
  { channel with decoder := r.1, dbufNextIndex := r.2.1 }

/-- The pull loop of `read()` (part_001:242-257): while some channel is
hungry, feed the earliest packet it needs.  The C++ `while (true)` is given
explicit fuel; `none` means the fuel ran out (never the case for a
terminating run). -/
def readLoop (M : DecoderModel σ) (file : PacketFile)
    (sectionEndLogicalOffset : Nat) :
    Nat → List (DecodeChannel σ) →
    Option (Except E57Error (List (DecodeChannel σ)))
  | 0, _ => none
  | fuel + 1, channels =>
    let earliestPacketLogicalOffset := earliestPacketNeededForInput channels
    if earliestPacketLogicalOffset = E57_UINT64_MAX then
      some (.ok channels)
    else
      match feedPacketToDecoders M file sectionEndLogicalOffset
          earliestPacketLogicalOffset channels with
      | .error e => some (.error e)
      | .ok channels => readLoop M file sectionEndLogicalOffset fuel channels

/-- The tail of the verification loop of `read()` (part_001:261-276):
compare every remaining channel's `dbuf.impl()->nextIndex()` with
`outputCount`; a mismatch is `E57_ERROR_INTERNAL`. -/
def checkEqualOutput (outputCount : Nat) :
    List (DecodeChannel σ) → Except E57Error Nat
  | [] => .ok outputCount
  | chan :: channels =>
    if outputCount ≠ chan.dbufNextIndex then
      .error .internal
    else
      checkEqualOutput outputCount channels

/-- The verification loop of `read()` (part_001:260-276): `outputCount` is
channel 0's write cursor, and every other channel must agree; with no
channels the initial `outputCount = 0` is returned. -/
def readVerifyOutput : List (DecodeChannel σ) → Except E57Error Nat
  | [] => .ok 0
  | chan :: channels => checkEqualOutput chan.dbufNextIndex channels

/-- Embeds `CompressedVectorReaderImpl::read()` (part_001:218-280):
`checkImageFileOpen` (a no-op, see above), `checkReaderOpen`, rewind all
bound buffers, drain the decoders, run the pull loop, then verify that all
channels produced the same record count and return it.  `imageFileIsOpen`
records the owning file's state for the (no-op) check; `none` propagates
fuel exhaustion of the pull loop. -/
def read (M : DecoderModel σ) (file : PacketFile) (imageFileIsOpen : Bool)
    (fuel : Nat) (st : ReaderState σ) :
    Option (Except E57Error (Nat × ReaderState σ)) :=
  match checkImageFileOpen imageFileIsOpen with
  | .error e => some (.error e)
  | .ok () =>
  match checkReaderOpen st with
  | .error e => some (.error e)
  | .ok () =>
    let channels := st.channels.map rewindChannel
    let channels := channels.map (drainChannel M)
    match readLoop M file st.sectionEndLogicalOffset fuel channels with
    | none => none
    | some (.error e) => some (.error e)
    | some (.ok channels) =>
      match readVerifyOutput channels with
      | .error e => some (.error e)
      | .ok outputCount =>
        some (.ok (outputCount, { st with channels := channels }))

/-- Embeds `CompressedVectorReaderImpl::read(dbufs)` (part_001:205-216):
`checkReaderOpen`, then `setBuffers(dbufs)` (which re-runs `checkBuffers`
and the pairwise compatibility check), then `read()`. -/
def readWithBuffers (M : DecoderModel σ) (file : PacketFile)
    (imageFileIsOpen : Bool) (fuel : Nat) (protoTerminals : List String)
    (st : ReaderState σ) (dbufs : List SDB) :
    Option (Except E57Error (Nat × ReaderState σ)) :=
  match checkReaderOpen st with
  | .error e => some (.error e)
  | .ok () =>
    match setBuffers protoTerminals st.dbufs dbufs with
    | .error e => some (.error e)
    | .ok newDbufs =>
      read M file imageFileIsOpen fuel { st with dbufs := newDbufs }

/-- Embeds `CompressedVectorReaderImpl::seek` (part_001:517-523):
`checkImageFileOpen` (a no-op), then unconditionally
`E57_ERROR_NOT_IMPLEMENTED`. -/
def seek (imageFileIsOpen : Bool) (st : ReaderState σ)
    (recordNumber : Nat) : Except E57Error Unit :=
  match checkImageFileOpen imageFileIsOpen with
  | .error e => .error e
  | .ok () => .error .notImplemented

/-- Embeds `CompressedVectorReaderImpl::close` (part_001:537-558) together with the
file's reader count.  The count is decremented first ("Before anything that
can throw, decrement reader count"), then `checkImageFileOpen` (a no-op),
then — only if still open — channels are destroyed, the cache is freed and
`isOpen_` cleared.  `ImageFileImpl::decrReaderCount` is not under src/ and
is modelled from the spec ("Decrement the file's reader count") as an
unguarded decrement on an integer count. -/
def close (st : ReaderState σ) (readerCount : Int) : ReaderState σ × Int :=
  let readerCount := readerCount - 1
  match checkImageFileOpen true with
  | .error _ => (st, readerCount)
  | .ok () =>
    if ¬ st.isOpen then
      (st, readerCount)
    else
      ({ st with channels := [], cacheAllocated := false, isOpen := false },
        readerCount)

/-- Embeds `~CompressedVectorReaderImpl` (part_001:155-173): call `close()` only
when still open, swallowing errors (`close` in this model cannot throw). -/
def destructor (st : ReaderState σ) (readerCount : Int) :
    ReaderState σ × Int :=
  if st.isOpen then close st readerCount else (st, readerCount)

/-! ## Reader construction -/

/-- The collaborators the constructor consults, abstracted: the prototype's
terminal paths and `findTerminalPosition`, the compressed vector's
`childCount`, the section header data read at
`getBinarySectionLogicalStart()`, the `physicalToLogical` mapping of the
checked file, the packet bytes, and `Decoder::DecoderFactory` (the initial
decoder state built for one buffer). -/
structure ConstructEnv (σ : Type) where
  protoTerminals : List String
  findTerminalPosition : String → Option Nat
  childCount : Nat
  sectionLogicalStart : Nat
  sectionLogicalLength : Nat
  dataPhysicalOffset : Nat
  physicalToLogical : Nat → Nat
  file : PacketFile
  decoderFactory : SDB → σ

/-- The per-buffer channel-creation loop of the constructor
(part_001:70-88): build a decoder for the buffer, resolve its path to a
bytestream number via `findTerminalPosition` (failure is
`E57_ERROR_INTERNAL`), and emplace a `DecodeChannel`.  The channel cursor
fields are zero-initialised here and seeded from the first data packet
afterwards (part_001:139-144). -/
def buildChannels (env : ConstructEnv σ) :
    List SDB → Except E57Error (List (DecodeChannel σ))
  | [] => .ok []
  | dbuf :: dbufs =>
    let decoder := env.decoderFactory dbuf
    match env.findTerminalPosition dbuf.pathName with
    | none => .error .internal
    | some bytestreamNumber =>
      match buildChannels env dbufs with
      | .error e => .error e
      | .ok channels =>
        .ok ({ dbufNextIndex := 0
               dbufCapacity := dbuf.capacity
               decoder := decoder
               bytestreamNumber := bytestreamNumber
               currentPacketLogicalOffset := 0
               currentBytestreamBufferIndex := 0
               currentBytestreamBufferLength := 0
               inputFinished := false } :: channels)

/-- Embeds `CompressedVectorReaderImpl::CompressedVectorReaderImpl`
(part_001:38-153): `checkImageFileOpen` (a no-op), reject an empty buffer
list with `E57_ERROR_BAD_API_ARGUMENT`, bind the buffers via `setBuffers`,
build a decode channel per buffer, reject `sectionLogicalStart == 0`
(`Internal`), compute `sectionEndLogicalOffset_`, require the packet at the
first data offset to be a data packet (`E57_ERROR_BAD_CV_PACKET`), seed
every channel's packet cursor from it, and only then increment the file's
reader count and set `isOpen_`.  Returns the constructed state (or the
exception) together with the file's reader count after the call. -/
def construct (env : ConstructEnv σ) (readerCount : Int) (dbufs : List SDB) :
    Except E57Error (ReaderState σ) × Int :=
  match checkImageFileOpen true with
  | .error e => (.error e, readerCount)
  | .ok () =>
  if dbufs.isEmpty then
    (.error .badApiArgument, readerCount)
  else
    match setBuffers env.protoTerminals [] dbufs with
    | .error e => (.error e, readerCount)
    | .ok dbufsBound =>
      match buildChannels env dbufsBound with
      | .error e => (.error e, readerCount)
      | .ok channels =>
        if env.sectionLogicalStart = 0 then
          (.error .internal, readerCount)
        else
          let sectionEndLogicalOffset :=
            env.sectionLogicalStart + env.sectionLogicalLength
          let dataLogicalOffset := env.physicalToLogical env.dataPhysicalOffset
          let dpkt := env.file dataLogicalOffset
          if dpkt.header.packetType ≠ DATA_PACKET then
            (.error .badCVPacket, readerCount)
          else
            let channels := channels.map (fun channel =>
              { channel with
                currentPacketLogicalOffset := dataLogicalOffset
                currentBytestreamBufferIndex := 0
                currentBytestreamBufferLength :=
                  dpkt.bytestreamBufferLength channel.bytestreamNumber })
            (.ok { isOpen := true
                   dbufs := dbufsBound
                   channels := channels
                   sectionEndLogicalOffset := sectionEndLogicalOffset
                   cacheAllocated := true },
              readerCount + 1)

/-! ## Concrete sample instances (used to witness hypotheses) -/

/-- A decoder model with no internal state: consumes nothing, never needs
input, leaves the write cursor alone. -/
def unitDecoder : DecoderModel Unit where
  inputProcess := fun s nextIndex _ => (s, nextIndex, 0)
  needsInput := fun _ => false

/-- A decoder model whose state is a `Nat` added to the write cursor on
every `inputProcess` call (so two channels can disagree on record count). -/
def skewDecoder : DecoderModel Nat where
  inputProcess := fun s nextIndex _ => (s, nextIndex + s, 0)
  needsInput := fun _ => false

/-- A data packet of logical length `lm1 + 1` with empty bytestreams. -/
def emptyDataPacket (lm1 : Nat) : DataPacket where
  header := { packetType := DATA_PACKET, packetLogicalLengthMinus1 := lm1 }
  bytestreamBufferLength := fun _ => 0

/-- A file whose every offset holds a data packet. -/
def allDataFile : PacketFile := fun _ => emptyDataPacket 3

/-- A file with non-data packets of length 5 at offsets below 10 and data
packets from offset 10 on. -/
def mixedFile : PacketFile := fun off =>
  if off < 10 then
    { header := { packetType := 0, packetLogicalLengthMinus1 := 4 },
      bytestreamBufferLength := fun _ => 0 }
  else
    emptyDataPacket 4

/-- An open reader with no channels (section `[0, 100)`). -/
def sampleOpenReader : ReaderState Unit where
  isOpen := true
  dbufs := []
  channels := []
  sectionEndLogicalOffset := 100
  cacheAllocated := true

/-- A decode channel draining the packet at offset `off`, with decoder
state `s`, capacity 4 and all cursors zero. -/
def sampleChannel (s : Nat) (off : Nat) (finished : Bool) : DecodeChannel Nat where
  dbufNextIndex := 0
  dbufCapacity := 4
  decoder := s
  bytestreamNumber := s
  currentPacketLogicalOffset := off
  currentBytestreamBufferIndex := 0
  currentBytestreamBufferLength := 0
  inputFinished := finished

/-- The channel fields that `feedChannel` never writes: the packet cursor,
the payload length, and the `inputFinished` flag (part_001:355-414 only
update `decoder`, the buffer write cursor, and
`currentBytestreamBufferIndex`). -/
def channelFrameIntact (c c' : DecodeChannel σ) : Prop :=
  c'.currentPacketLogicalOffset = c.currentPacketLogicalOffset ∧
  c'.currentBytestreamBufferLength = c.currentBytestreamBufferLength ∧
  c'.inputFinished = c.inputFinished

/-- A reader whose two channels will disagree on the produced record count
(the skew decoder advances channel 1's cursor by 1 during the drain
phase). -/
def mismatchReader : ReaderState Nat where
  isOpen := true
  dbufs := []
  channels := [sampleChannel 0 100 true, sampleChannel 1 100 true]
  sectionEndLogicalOffset := 50
  cacheAllocated := true

/-- Concrete buffers for the rebind witness: two bound `Real64` buffers and
three candidate rebinds (shorter list, capacity change, pointer-only
change). -/
def sdbX : SDB where
  pathName := "cartesianX"
  memoryRepresentation := .Real64
  capacity := 4
  stride := 8
  buffer := 1000

def sdbY : SDB where
  pathName := "cartesianY"
  memoryRepresentation := .Real64
  capacity := 4
  stride := 8
  buffer := 2000

/-- An open reader bound to `[sdbX, sdbY]`. -/
def boundReader : ReaderState Unit where
  isOpen := true
  dbufs := [sdbX, sdbY]
  channels := []
  sectionEndLogicalOffset := 100
  cacheAllocated := true

/-! ## Theorems -/

theorem findNextDataPacket_of_not_lt (file : PacketFile) (sectionEnd next : Nat)
    (h : ¬ next < sectionEnd) :
    findNextDataPacket file sectionEnd next = E57_UINT64_MAX := by
  rw [findNextDataPacket]
  simp [h]

/-- When the scan succeeds, the result is at least the starting offset. -/
theorem findNextDataPacket_ge (file : PacketFile) (sectionEnd : Nat) :
    ∀ next, findNextDataPacket file sectionEnd next = E57_UINT64_MAX ∨
      next ≤ findNextDataPacket file sectionEnd next := by
  intro next
  generalize hn : sectionEnd - next = n
  induction n using Nat.strong_induction_on generalizing next with
  | _ n ih =>
    rw [findNextDataPacket]
    by_cases h : next < sectionEnd
    · simp only [h, dif_pos]
      by_cases hd : (file next).header.packetType = DATA_PACKET
      · simp [hd]
      · simp only [hd, if_neg, if_false]
        rcases ih (sectionEnd - (next + (file next).header.packetLogicalLengthMinus1 + 1))
            (by omega) _ rfl with h' | h'
        · exact Or.inl h'
        · exact Or.inr (by omega)
    · simp [h]

/-! ## C8: construction with an empty buffer list -/

/-- C8: constructing a `CompressedVectorReader` with an empty SDB list
raises `E57_ERROR_BAD_API_ARGUMENT` (part_001:54-59), and since the throw
happens before channel creation and before `incrReaderCount`
(part_001:149), no reader state is produced and the file's reader count is
returned unchanged. -/
theorem construct_empty_dbufs_badApiArgument (σ : Type) (env : ConstructEnv σ)
    (readerCount : Int) :
    construct env readerCount ([] : List SDB) =
      (.error .badApiArgument, readerCount) := rfl

/-! ## C1: close is not idempotent in the code -/

/-- C1 (divergence witness): `close()` (part_001:537-558) decrements the
file's reader count before testing `isOpen_`, so a second `close()` on an
already-closed reader decrements it again.  From an open reader and a
count of 1, the first close ends with count 0 and a closed reader, and a
second close — which the spec calls a no-op — leaves the state alone but
drives the count to -1.  The reader count is therefore decremented once
per `close()` call, not once per reader lifetime. -/
theorem close_decrements_reader_count_each_call :
    (close sampleOpenReader 1).2 = 0 ∧
    (close sampleOpenReader 1).1.isOpen = false ∧
    (close (close sampleOpenReader 1).1 (close sampleOpenReader 1).2).1 =
      (close sampleOpenReader 1).1 ∧
    (close (close sampleOpenReader 1).1 (close sampleOpenReader 1).2).2 = -1 ∧
    (destructor (close sampleOpenReader 1).1 (close sampleOpenReader 1).2).2 = 0 :=
  ⟨rfl, rfl, rfl, rfl, rfl⟩

/-! ## C2: operations on a closed image file never raise ImageFileNotOpen -/

/-- C2 (divergence witness): `checkImageFileOpen` (part_001:560-564) has an
empty body ("// unimplemented..."), so it succeeds even when the owning
image file is closed; consequently `seek` on a closed file raises
`NotImplemented` (not `ImageFileNotOpen`), and `read()` on a closed file
proceeds normally (here returning 0 records) instead of raising
`ImageFileNotOpen`. -/
theorem checkImageFileOpen_is_unimplemented :
    (∀ imageFileIsOpen : Bool,
      checkImageFileOpen imageFileIsOpen = .ok ()) ∧
    seek false sampleOpenReader 0 = .error .notImplemented ∧
    read unitDecoder allDataFile false 1 sampleOpenReader =
      some (.ok (0, sampleOpenReader)) :=
  ⟨fun _ => rfl, rfl, rfl⟩

/-! ## C9: the stride invariant of SourceDestBuffer -/

/-- C9: every `SourceDestBuffer` that construction accepts satisfies
`stride ≥ minStride(memoryRepresentation)` (the sizes being 1 for
Int8/UInt8/Bool, 2 for Int16/UInt16, 4 for Int32/UInt32/Real32, 8 for
Int64/Real64, `sizeof(ustring)` for UString), no public operation changes
those attributes, and `checkInvariant` (SourceDestBuffer.cpp:38-86) raises
`ErrorInvarianceViolation` exactly when the stride is below that bound
(the C++ `default:` case of an unknown representation is unrepresentable
in the closed `MemoryRepresentation` type). -/
theorem sdb_stride_invariant (sizeofUString : Nat) (pathName : String)
    (rep : MemoryRepresentation) (buffer capacity strideArg : Nat) (b : SDB)
    (h : mkSourceDestBuffer sizeofUString pathName rep buffer capacity strideArg
      = .ok b) :
    minStride sizeofUString b.memoryRepresentation ≤ b.stride ∧
    checkInvariant sizeofUString b = .ok () ∧
    (∀ b' : SDB,
      checkInvariant sizeofUString b' = .error .invarianceViolation ↔
        b'.stride < minStride sizeofUString b'.memoryRepresentation) := by
  have hb : minStride sizeofUString b.memoryRepresentation ≤ b.stride := by
    unfold mkSourceDestBuffer at h
    by_cases hc : capacity = 0
    · simp [hc] at h
    · by_cases hs : (if strideArg = 0 then minStride sizeofUString rep else strideArg)
          < minStride sizeofUString rep
      · simp [hc, hs] at h
      · simp [hc, hs] at h
        subst h
        simpa using hs
  refine ⟨hb, ?_, ?_⟩
  · unfold checkInvariant
    simp [Nat.not_lt.mpr hb]
  · intro b'
    unfold checkInvariant
    by_cases hlt : b'.stride < minStride sizeofUString b'.memoryRepresentation
    · simp [hlt]
    · simp [hlt]

/-- Witness for C9 at a concrete input: a `Real64` buffer of capacity 10
constructed with the default stride (0 ↦ element size 8). -/
theorem sdb_stride_invariant_witness :
    minStride 32 MemoryRepresentation.Real64 ≤ 8 ∧
    checkInvariant 32
      { pathName := "cartesianX", memoryRepresentation := .Real64,
        capacity := 10, stride := 8, buffer := 0 } = .ok () :=
  have h := sdb_stride_invariant 32 "cartesianX" .Real64 0 10 0
    { pathName := "cartesianX", memoryRepresentation := .Real64,
      capacity := 10, stride := 8, buffer := 0 } rfl
  ⟨h.1, h.2.1⟩

/-! ## C5: the forward scan for the next data packet -/

theorem findNextDataPacket_success (file : PacketFile) (sectionEnd : Nat) :
    ∀ start, findNextDataPacket file sectionEnd start ≠ E57_UINT64_MAX →
      findNextDataPacket file sectionEnd start < sectionEnd ∧
      (file (findNextDataPacket file sectionEnd start)).header.packetType
        = DATA_PACKET ∧
      ScanReaches file sectionEnd start
        (findNextDataPacket file sectionEnd start) := by
  intro start
  generalize hn : sectionEnd - start = n
  induction n using Nat.strong_induction_on generalizing start with
  | _ n ih =>
    intro hne
    rw [findNextDataPacket] at hne ⊢
    by_cases h : start < sectionEnd
    · by_cases hd : (file start).header.packetType = DATA_PACKET
      · simp only [h, dif_pos, hd, if_pos]
        exact ⟨trivial, trivial, ScanReaches.refl start⟩
      · simp only [h, dif_pos, hd, if_neg, if_false] at hne ⊢
        have hrec := ih
          (sectionEnd - (start + (file start).header.packetLogicalLengthMinus1 + 1))
          (by omega) _ rfl hne
        exact ⟨hrec.1, hrec.2.1, ScanReaches.step _ _ h hd hrec.2.2⟩
    · simp only [h, dif_neg, not_false_iff] at hne
      exact absurd rfl hne

theorem findNextDataPacket_failure (file : PacketFile) (sectionEnd : Nat)
    (hse : sectionEnd ≤ E57_UINT64_MAX) :
    ∀ start t, ScanReaches file sectionEnd start t →
      findNextDataPacket file sectionEnd start = E57_UINT64_MAX →
      t < sectionEnd → (file t).header.packetType ≠ DATA_PACKET := by
  intro start t hr
  induction hr with
  | refl s =>
    intro hmax hlt hd
    rw [findNextDataPacket] at hmax
    simp only [hlt, dif_pos, hd, if_pos] at hmax
    omega
  | step s u hlt hnd _ ih =>
    intro hmax hu
    apply ih _ hu
    rw [findNextDataPacket] at hmax
    simpa only [hlt, dif_pos, hnd, if_neg, if_false] using hmax

/-- C5: `findNextDataPacket(start)` (part_001:482-515) scans forward from
`start`, hopping over non-Data packets by `packetLogicalLengthMinus1 + 1`
(the `ScanReaches` relation); when `start` is already at or beyond
`sectionEndLogicalOffset_` — in particular when `start` is the
`E57_UINT64_MAX` sentinel — it returns `E57_UINT64_MAX` at once; a
non-sentinel result is an in-section Data packet reached by the scan (and
the first one: every hop of `ScanReaches` skips a non-Data packet); a
sentinel result means the scan exhausted the section without meeting a Data
packet.  The scan always terminates because each hop advances by at least
one byte (`findNextDataPacket` is total, by well-founded recursion on
`sectionEnd - next`). -/
theorem findNextDataPacket_spec (file : PacketFile) (sectionEnd start : Nat)
    (hse : sectionEnd ≤ E57_UINT64_MAX) :
    (sectionEnd ≤ start →
      findNextDataPacket file sectionEnd start = E57_UINT64_MAX) ∧
    (findNextDataPacket file sectionEnd start ≠ E57_UINT64_MAX →
      start ≤ findNextDataPacket file sectionEnd start ∧
      findNextDataPacket file sectionEnd start < sectionEnd ∧
      (file (findNextDataPacket file sectionEnd start)).header.packetType
        = DATA_PACKET ∧
      ScanReaches file sectionEnd start
        (findNextDataPacket file sectionEnd start)) ∧
    (findNextDataPacket file sectionEnd start = E57_UINT64_MAX →
      ∀ t, ScanReaches file sectionEnd start t → t < sectionEnd →
        (file t).header.packetType ≠ DATA_PACKET) := by
  refine ⟨?_, ?_, ?_⟩
  · intro hge
    exact findNextDataPacket_of_not_lt file sectionEnd start (by omega)
  · intro hne
    have hsucc := findNextDataPacket_success file sectionEnd start hne
    have hge := findNextDataPacket_ge file sectionEnd start
    rcases hge with hmax | hle
    · exact absurd hmax hne
    · exact ⟨hle, hsucc⟩
  · intro hmax t hr hlt
    exact findNextDataPacket_failure file sectionEnd hse start t hr hmax hlt

theorem mixedFile_scan_eval : findNextDataPacket mixedFile 20 0 = 10 := by
  rw [findNextDataPacket]
  norm_num [mixedFile, DATA_PACKET]
  rw [findNextDataPacket]
  norm_num [mixedFile, DATA_PACKET]
  rw [findNextDataPacket]
  norm_num [mixedFile, DATA_PACKET, emptyDataPacket]

/-- Witness for C5 at a concrete section: in `mixedFile` with
`sectionEnd = 20`, the scan from 0 lands on the data packet at 10, and the
scan from 20 (at the section end) fails with the sentinel. -/
theorem findNextDataPacket_spec_witness :
    0 ≤ findNextDataPacket mixedFile 20 0 ∧
    findNextDataPacket mixedFile 20 0 < 20 ∧
    (mixedFile (findNextDataPacket mixedFile 20 0)).header.packetType
      = DATA_PACKET ∧
    ScanReaches mixedFile 20 0 (findNextDataPacket mixedFile 20 0) ∧
    findNextDataPacket mixedFile 20 20 = E57_UINT64_MAX := by
  have h1 := (findNextDataPacket_spec mixedFile 20 0
    (by norm_num [E57_UINT64_MAX])).2.1
    (by rw [mixedFile_scan_eval]; norm_num [E57_UINT64_MAX])
  have h2 := (findNextDataPacket_spec mixedFile 20 20
    (by norm_num [E57_UINT64_MAX])).1 (le_refl 20)
  exact ⟨h1.1, h1.2.1, h1.2.2.1, h1.2.2.2, h2⟩

/-! ## C4: earliest-packet selection and loop exit -/

theorem earliestStep_le_acc (acc : Nat) (chan : DecodeChannel σ) :
    earliestStep acc chan ≤ acc := by
  unfold earliestStep
  split
  · split <;> omega
  · exact le_refl acc

theorem earliestStep_le_live (acc : Nat) (chan : DecodeChannel σ)
    (h : liveChannel chan) :
    earliestStep acc chan ≤ chan.currentPacketLogicalOffset := by
  unfold earliestStep
  rw [if_pos h]
  split <;> omega

theorem earliestFold_le_acc (channels : List (DecodeChannel σ)) :
    ∀ acc, channels.foldl earliestStep acc ≤ acc := by
  induction channels with
  | nil => intro acc; exact le_refl acc
  | cons chan channels ih =>
    intro acc
    calc (chan :: channels).foldl earliestStep acc
        = channels.foldl earliestStep (earliestStep acc chan) := rfl
      _ ≤ earliestStep acc chan := ih _
      _ ≤ acc := earliestStep_le_acc acc chan

theorem earliestFold_le_live (channels : List (DecodeChannel σ)) :
    ∀ acc, ∀ chan ∈ channels, liveChannel chan →
      channels.foldl earliestStep acc ≤ chan.currentPacketLogicalOffset := by
  induction channels with
  | nil => intro acc chan hmem; cases hmem
  | cons c channels ih =>
    intro acc chan hmem hl
    rcases List.mem_cons.mp hmem with rfl | hmem
    · calc (chan :: channels).foldl earliestStep acc
          = channels.foldl earliestStep (earliestStep acc chan) := rfl
        _ ≤ earliestStep acc chan := earliestFold_le_acc channels _
        _ ≤ chan.currentPacketLogicalOffset := earliestStep_le_live acc chan hl
    · exact ih (earliestStep acc c) chan hmem hl

theorem earliestFold_eq_acc_or_mem (channels : List (DecodeChannel σ)) :
    ∀ acc, channels.foldl earliestStep acc = acc ∨
      ∃ chan ∈ channels, liveChannel chan ∧
        channels.foldl earliestStep acc = chan.currentPacketLogicalOffset := by
  induction channels with
  | nil => intro acc; exact Or.inl rfl
  | cons c channels ih =>
    intro acc
    have hstep : earliestStep acc c = acc ∨
        (liveChannel c ∧ earliestStep acc c = c.currentPacketLogicalOffset) := by
      unfold earliestStep
      by_cases hl : liveChannel c
      · rw [if_pos hl]
        split
        · exact Or.inr ⟨hl, rfl⟩
        · exact Or.inl rfl
      · rw [if_neg hl]
        exact Or.inl rfl
    rcases ih (earliestStep acc c) with h | ⟨chan, hmem, hl, heq⟩
    · rcases hstep with h2 | ⟨hl, h2⟩
      · exact Or.inl (by simpa [List.foldl_cons, h2] using h)
      · exact Or.inr ⟨c, List.mem_cons_self c channels, hl,
          by simpa [List.foldl_cons, h2] using h⟩
    · exact Or.inr ⟨chan, List.mem_cons_of_mem c hmem, hl, heq⟩

theorem earliestFold_of_none_live (channels : List (DecodeChannel σ))
    (h : ∀ chan ∈ channels, ¬ liveChannel chan) :
    ∀ acc, channels.foldl earliestStep acc = acc := by
  induction channels with
  | nil => intro acc; rfl
  | cons c channels ih =>
    intro acc
    have hc : earliestStep acc c = acc := by
      unfold earliestStep
      rw [if_neg (h c (List.mem_cons_self c channels))]
    rw [List.foldl_cons, hc]
    exact ih (fun chan hmem => h chan (List.mem_cons_of_mem c hmem)) acc

/-- C4: on each pull-loop iteration (part_001:242-257) the packet handed to
`feedPacketToDecoders` is `earliestPacketNeededForInput()`, which — on any
channel list whose live channels sit at offsets below the sentinel — equals
the minimum `currentPacketLogicalOffset` over the channels that are neither
output-blocked nor `inputFinished`, and equals `E57_UINT64_MAX` exactly
when no such channel exists; when the selection returns the sentinel the
loop exits, returning the channels unchanged, and otherwise the selected
minimum is the offset fed. -/
theorem earliest_packet_selection (σ : Type)
    (channels : List (DecodeChannel σ))
    (hbound : ∀ chan ∈ channels, liveChannel chan →
      chan.currentPacketLogicalOffset < E57_UINT64_MAX) :
    (earliestPacketNeededForInput channels = E57_UINT64_MAX ↔
      ∀ chan ∈ channels, ¬ liveChannel chan) ∧
    (∀ chan ∈ channels, liveChannel chan →
      earliestPacketNeededForInput channels ≤ chan.currentPacketLogicalOffset) ∧
    (earliestPacketNeededForInput channels ≠ E57_UINT64_MAX →
      ∃ chan ∈ channels, liveChannel chan ∧
        earliestPacketNeededForInput channels
          = chan.currentPacketLogicalOffset) ∧
    (∀ (M : DecoderModel σ) (file : PacketFile) (sectionEnd fuel : Nat),
      (earliestPacketNeededForInput channels = E57_UINT64_MAX →
        readLoop M file sectionEnd (fuel + 1) channels = some (.ok channels)) ∧
      (earliestPacketNeededForInput channels ≠ E57_UINT64_MAX →
        readLoop M file sectionEnd (fuel + 1) channels =
          match feedPacketToDecoders M file sectionEnd
              (earliestPacketNeededForInput channels) channels with
          | .error e => some (.error e)
          | .ok cs => readLoop M file sectionEnd fuel cs)) := by
  refine ⟨⟨?_, ?_⟩, ?_, ?_, ?_⟩
  · intro hmax chan hmem hl
    have hle := earliestFold_le_live channels E57_UINT64_MAX chan hmem hl
    rw [earliestPacketNeededForInput] at hmax
    rw [hmax] at hle
    exact absurd (lt_of_le_of_lt hle (hbound chan hmem hl)) (lt_irrefl _)
  · intro hnone
    exact earliestFold_of_none_live channels hnone E57_UINT64_MAX
  · intro chan hmem hl
    exact earliestFold_le_live channels E57_UINT64_MAX chan hmem hl
  · intro hne
    rcases earliestFold_eq_acc_or_mem channels E57_UINT64_MAX with h | h
    · exact absurd h hne
    · exact h
  · intro M file sectionEnd fuel
    constructor
    · intro hmax
      simp [readLoop, hmax]
    · intro hne
      simp only [readLoop, if_neg hne]

/-- Witness for C4 at concrete inputs: among two live channels at offsets 7
and 5 (with a finished channel at 9), the selection is bounded by the live
offset 5; on a list whose only channel is finished, the selection is the
sentinel and one loop iteration exits with the channels unchanged. -/
theorem earliest_packet_selection_witness :
    earliestPacketNeededForInput
      [sampleChannel 0 7 false, sampleChannel 1 5 false, sampleChannel 2 9 true]
      ≤ 5 ∧
    readLoop skewDecoder allDataFile 100 3 [sampleChannel 0 7 true] =
      some (.ok [sampleChannel 0 7 true]) := by
  constructor
  · exact (earliest_packet_selection Nat
      [sampleChannel 0 7 false, sampleChannel 1 5 false, sampleChannel 2 9 true]
      (by decide)).2.1 (sampleChannel 1 5 false) (by simp) (by decide)
  · exact ((earliest_packet_selection Nat [sampleChannel 0 7 true]
      (by decide)).2.2.2 skewDecoder allDataFile 100 2).1 (by decide)

/-! ## Frame facts about the feed loop (used by C6 and C10) -/

theorem feedChannel_frame (M : DecoderModel σ) (dpkt : DataPacket) (off : Nat)
    (c c' : DecodeChannel σ) (b : Bool)
    (h : feedChannel M dpkt off c = .ok (c', b)) :
    channelFrameIntact c c' := by
  unfold feedChannel at h
  by_cases ha : _alreadyReadPacket c off
  · rw [if_pos ha] at h
    simp only [Except.ok.injEq, Prod.mk.injEq] at h
    rw [← h.1]
    exact ⟨rfl, rfl, rfl⟩
  · rw [if_neg ha] at h
    by_cases h1 : dpkt.bytestreamBufferLength c.bytestreamNumber
        < c.currentBytestreamBufferIndex
    · rw [if_pos h1] at h
      cases h
    · rw [if_neg h1] at h
      by_cases h2 : dpkt.bytestreamBufferLength c.bytestreamNumber
          < c.currentBytestreamBufferIndex
            + (dpkt.bytestreamBufferLength c.bytestreamNumber
              - c.currentBytestreamBufferIndex)
      · rw [if_pos h2] at h
        cases h
      · rw [if_neg h2] at h
        simp only [Except.ok.injEq, Prod.mk.injEq] at h
        rw [← h.1]
        exact ⟨rfl, rfl, rfl⟩

theorem feedLoop_frame (M : DecoderModel σ) (dpkt : DataPacket) (off : Nat) :
    ∀ (channels cs : List (DecodeChannel σ)) (b : Bool),
      feedLoop M dpkt off channels = .ok (cs, b) →
      List.Forall₂ channelFrameIntact channels cs := by
  intro channels
  induction channels with
  | nil =>
    intro cs b h
    simp only [feedLoop, Except.ok.injEq, Prod.mk.injEq] at h
    rw [← h.1]
    exact List.Forall₂.nil
  | cons c rest ih =>
    intro cs b h
    unfold feedLoop at h
    cases hfc : feedChannel M dpkt off c with
    | error e => rw [hfc] at h; cases h
    | ok p =>
      rw [hfc] at h
      cases hfl : feedLoop M dpkt off rest with
      | error e => rw [hfl] at h; cases h
      | ok q =>
        rw [hfl] at h
        simp only [Except.ok.injEq, Prod.mk.injEq] at h
        rw [← h.1]
        exact List.Forall₂.cons
          (feedChannel_frame M dpkt off c p.1 p.2 (by rw [hfc]))
          (ih q.1 q.2 (by rw [hfl]))

theorem alreadyReadPacket_false_offset (c : DecodeChannel σ) (off : Nat)
    (h : ¬ _alreadyReadPacket c off) :
    c.currentPacketLogicalOffset = off := by
  unfold _alreadyReadPacket at h
  simp only [Bool.or_eq_true, bne_iff_ne, not_or] at h
  exact not_not.mp h.1

theorem advanceChannel_offset_le (dpkt2 : DataPacket) (off nextOff : Nat)
    (hle : off ≤ nextOff) (c : DecodeChannel σ) :
    c.currentPacketLogicalOffset ≤
      (advanceChannel dpkt2 off nextOff c).currentPacketLogicalOffset := by
  unfold advanceChannel
  by_cases ha : _alreadyReadPacket c off
  · rw [if_pos ha]
  · rw [if_neg ha]
    simpa [alreadyReadPacket_false_offset c off ha] using hle

theorem finishChannel_offset (off : Nat) (c : DecodeChannel σ) :
    (finishChannel off c).currentPacketLogicalOffset
      = c.currentPacketLogicalOffset := by
  unfold finishChannel
  by_cases ha : _alreadyReadPacket c off
  · rw [if_pos ha]
  · rw [if_neg ha]

theorem forall₂_offset_le_of_frame_map (f : DecodeChannel σ → DecodeChannel σ)
    (hf : ∀ c, c.currentPacketLogicalOffset ≤ (f c).currentPacketLogicalOffset) :
    ∀ {l1 l2 : List (DecodeChannel σ)}, List.Forall₂ channelFrameIntact l1 l2 →
      List.Forall₂
        (fun c c' => c.currentPacketLogicalOffset ≤ c'.currentPacketLogicalOffset)
        l1 (l2.map f) := by
  intro l1 l2 h
  induction h with
  | nil => exact List.Forall₂.nil
  | cons hrel _ ih =>
    refine List.Forall₂.cons ?_ ih
    calc _ = _ := (hrel.1).symm
      _ ≤ _ := hf _

theorem forall₂_offset_le_of_frame {l1 l2 : List (DecodeChannel σ)}
    (h : List.Forall₂ channelFrameIntact l1 l2) :
    List.Forall₂
      (fun c c' => c.currentPacketLogicalOffset ≤ c'.currentPacketLogicalOffset)
      l1 l2 := by
  induction h with
  | nil => exact List.Forall₂.nil
  | cons hrel _ ih => exact List.Forall₂.cons (le_of_eq hrel.1.symm) ih

/-! ## C6: packet offsets are non-decreasing -/

/-- C6: every successful `feedPacketToDecoders` call — the only place the
feed/advance phase writes `currentPacketLogicalOffset` (part_001:442) —
leaves each channel's `currentPacketLogicalOffset` at or above its previous
value: channels not on the fed packet are untouched, and channels advanced
off the fed packet move to
`findNextDataPacket(currentPacketLogicalOffset + packetLength)`, which is
beyond the fed offset.  Hence the offset is non-decreasing across the
channel's lifetime. -/
theorem feedPacketToDecoders_monotone_offsets (M : DecoderModel σ)
    (file : PacketFile) (sectionEnd off : Nat)
    (channels cs : List (DecodeChannel σ))
    (h : feedPacketToDecoders M file sectionEnd off channels = .ok cs) :
    List.Forall₂
      (fun c c' => c.currentPacketLogicalOffset ≤ c'.currentPacketLogicalOffset)
      channels cs := by
  unfold feedPacketToDecoders at h
  by_cases hd : (file off).header.packetType ≠ DATA_PACKET
  · rw [if_pos hd] at h
    cases h
  · rw [if_neg hd] at h
    cases hfl : feedLoop M (file off) off channels with
    | error e => rw [hfl] at h; cases h
    | ok p =>
      rw [hfl] at h
      have hframe := feedLoop_frame M (file off) off channels p.1 p.2 (by rw [hfl])
      by_cases hany : p.2 = true
      · simp only [hany, if_true, if_neg, not_true, ite_false] at h
        set next := findNextDataPacket file sectionEnd
          (off + (file off).header.packetLogicalLengthMinus1 + 1) with hnext
        by_cases hlt : next < E57_UINT64_MAX
        · rw [if_pos hlt] at h
          have hge : off + (file off).header.packetLogicalLengthMinus1 + 1 ≤ next := by
            rcases findNextDataPacket_ge file sectionEnd
              (off + (file off).header.packetLogicalLengthMinus1 + 1) with hmax | hle
            · rw [← hnext] at hmax
              omega
            · rw [← hnext] at hle
              exact hle
          injection h with h1
          rw [← h1]
          exact forall₂_offset_le_of_frame_map _
            (advanceChannel_offset_le (file next) off next (by omega)) hframe
        · rw [if_neg hlt] at h
          by_cases hse : sectionEnd ≤ next
          · rw [if_pos hse] at h
            injection h with h1
            rw [← h1]
            refine forall₂_offset_le_of_frame_map _ ?_ hframe
            intro c
            rw [finishChannel_offset]
          · rw [if_neg hse] at h
            injection h with h1
            rw [← h1]
            exact forall₂_offset_le_of_frame hframe
      · simp only [Bool.not_eq_true] at hany
        simp only [hany, Bool.false_eq_true, if_false, not_false_iff, if_true] at h
        injection h with h1
        rw [← h1]
        exact forall₂_offset_le_of_frame hframe

/-- Witness for C6 at a concrete input: a single channel on the (data)
packet at offset 0 of `allDataFile`, fed with the trivial decoder, keeps a
non-decreasing packet offset. -/
theorem feedPacketToDecoders_monotone_offsets_witness :
    List.Forall₂
      (fun c c' => c.currentPacketLogicalOffset ≤ c'.currentPacketLogicalOffset)
      [sampleChannel 0 0 false]
      [sampleChannel 0 0 false] :=
  feedPacketToDecoders_monotone_offsets skewDecoder allDataFile 100 0
    [sampleChannel 0 0 false] [sampleChannel 0 0 false] rfl

/-! ## C10: feeding without exhaustion leaves the cursor fields alone -/

/-- C10: when the feed loop of `feedPacketToDecoders` reports no exhausted
channel (`anyChannelHasExhaustedPacket = false`, i.e. `isInputBlocked` was
false for every fed channel), the function returns the fed channels as they
are, with every channel's `currentPacketLogicalOffset`,
`currentBytestreamBufferLength` and `inputFinished` unchanged (only the
decoder state, the buffer write cursor and `currentBytestreamBufferIndex`
may move); and the unconditional `findNextDataPacket` call made with the
`E57_UINT64_MAX` sentinel (part_001:417) returns the sentinel immediately
(the sentinel is at or past `sectionEndLogicalOffset_`) without touching
any channel. -/
theorem feedPacketToDecoders_frame (M : DecoderModel σ) (file : PacketFile)
    (sectionEnd off : Nat) (channels cs : List (DecodeChannel σ))
    (hse : sectionEnd ≤ E57_UINT64_MAX)
    (hdata : (file off).header.packetType = DATA_PACKET)
    (hfeed : feedLoop M (file off) off channels = .ok (cs, false)) :
    feedPacketToDecoders M file sectionEnd off channels = .ok cs ∧
    findNextDataPacket file sectionEnd E57_UINT64_MAX = E57_UINT64_MAX ∧
    List.Forall₂ channelFrameIntact channels cs := by
  refine ⟨?_, findNextDataPacket_of_not_lt file sectionEnd E57_UINT64_MAX
      (by omega),
    feedLoop_frame M (file off) off channels cs false hfeed⟩
  unfold feedPacketToDecoders
  rw [if_neg (fun hc => hc hdata), hfeed]
  rfl

/-- Witness for C10 at a concrete input: one channel on the data packet at
offset 0 of `allDataFile`, fed with a decoder that consumes nothing and
never blocks on input. -/
theorem feedPacketToDecoders_frame_witness :
    feedPacketToDecoders skewDecoder allDataFile 100 0
      [sampleChannel 0 0 false] = .ok [sampleChannel 0 0 false] ∧
    findNextDataPacket allDataFile 100 E57_UINT64_MAX = E57_UINT64_MAX ∧
    List.Forall₂ channelFrameIntact
      [sampleChannel 0 0 false] [sampleChannel 0 0 false] :=
  feedPacketToDecoders_frame skewDecoder allDataFile 100 0
    [sampleChannel 0 0 false] [sampleChannel 0 0 false]
    (by norm_num [E57_UINT64_MAX]) rfl rfl

/-! ## C3: all channels agree on the record count -/

theorem checkEqualOutput_ok (outputCount : Nat) :
    ∀ (channels : List (DecodeChannel σ)) (n : Nat),
      checkEqualOutput outputCount channels = .ok n →
      n = outputCount ∧ ∀ c ∈ channels, c.dbufNextIndex = outputCount := by
  intro channels
  induction channels with
  | nil =>
    intro n h
    injection h with h1
    exact ⟨h1.symm, fun c hc => absurd hc (List.not_mem_nil c)⟩
  | cons c rest ih =>
    intro n h
    unfold checkEqualOutput at h
    by_cases hne : outputCount ≠ c.dbufNextIndex
    · rw [if_pos hne] at h
      cases h
    · rw [if_neg hne] at h
      push_neg at hne
      have hrest := ih n h
      refine ⟨hrest.1, ?_⟩
      intro x hx
      rcases List.mem_cons.mp hx with rfl | hx
      · exact hne.symm
      · exact hrest.2 x hx

theorem readVerifyOutput_ok (channels : List (DecodeChannel σ)) (n : Nat)
    (h : readVerifyOutput channels = .ok n) :
    ∀ c ∈ channels, c.dbufNextIndex = n := by
  cases channels with
  | nil => exact fun c hc => absurd hc (List.not_mem_nil c)
  | cons c rest =>
    unfold readVerifyOutput at h
    have hceq := checkEqualOutput_ok c.dbufNextIndex rest n h
    intro x hx
    rcases List.mem_cons.mp hx with rfl | hx
    · exact hceq.1.symm
    · rw [hceq.2 x hx, hceq.1]

theorem checkEqualOutput_ok_or_internal (outputCount : Nat) :
    ∀ channels : List (DecodeChannel σ),
      (∃ n, checkEqualOutput outputCount channels = .ok n) ∨
      checkEqualOutput outputCount channels = .error .internal := by
  intro channels
  induction channels with
  | nil => exact Or.inl ⟨outputCount, rfl⟩
  | cons c rest ih =>
    unfold checkEqualOutput
    by_cases hne : outputCount ≠ c.dbufNextIndex
    · rw [if_pos hne]
      exact Or.inr rfl
    · rw [if_neg hne]
      exact ih

theorem readVerifyOutput_mismatch (channels : List (DecodeChannel σ))
    (c1 : DecodeChannel σ) (h1 : c1 ∈ channels)
    (c2 : DecodeChannel σ) (h2 : c2 ∈ channels)
    (hne : c1.dbufNextIndex ≠ c2.dbufNextIndex) :
    readVerifyOutput channels = .error .internal := by
  cases channels with
  | nil => cases h1
  | cons c rest =>
    unfold readVerifyOutput
    rcases checkEqualOutput_ok_or_internal c.dbufNextIndex rest with ⟨n, hn⟩ | h
    · have hall := readVerifyOutput_ok (c :: rest) n (by
        unfold readVerifyOutput
        exact hn)
      exact absurd (by rw [hall c1 h1, hall c2 h2]) hne
    · exact h

/-- C3: every successful `read()` (part_001:218-280) returns a count `n`
with every bound buffer's write cursor (`nextIndex`, held in the channel
that owns it) equal to `n`; and whenever the pull loop finishes with two
channels whose cursors differ, the verification loop at part_001:259-276
makes `read()` raise the fatal `E57_ERROR_INTERNAL` instead of
returning. -/
theorem read_returns_common_record_count (M : DecoderModel σ)
    (file : PacketFile) (imageFileIsOpen : Bool) (fuel : Nat)
    (st : ReaderState σ) :
    (∀ (n : Nat) (st' : ReaderState σ),
      read M file imageFileIsOpen fuel st = some (.ok (n, st')) →
      ∀ c ∈ st'.channels, c.dbufNextIndex = n) ∧
    (∀ cs : List (DecodeChannel σ), st.isOpen = true →
      readLoop M file st.sectionEndLogicalOffset fuel
        ((st.channels.map rewindChannel).map (drainChannel M))
        = some (.ok cs) →
      ∀ c1 ∈ cs, ∀ c2 ∈ cs, c1.dbufNextIndex ≠ c2.dbufNextIndex →
      read M file imageFileIsOpen fuel st = some (.error .internal)) := by
  constructor
  · intro n st' h
    unfold read at h
    simp only [checkImageFileOpen] at h
    by_cases hopen : st.isOpen = true
    · simp only [checkReaderOpen, hopen, not_true, if_neg, if_false] at h
      cases hloop : readLoop M file st.sectionEndLogicalOffset fuel
          ((st.channels.map rewindChannel).map (drainChannel M)) with
      | none => rw [hloop] at h; cases h
      | some r =>
        rw [hloop] at h
        cases r with
        | error e => cases h
        | ok cs =>
          simp only [] at h
          cases hv : readVerifyOutput cs with
          | error e => rw [hv] at h; cases h
          | ok m =>
            rw [hv] at h
            simp only [] at h
            injection h with h1
            injection h1 with h2
            rw [Prod.mk.injEq] at h2
            obtain ⟨hn, hst⟩ := h2
            rw [← hst]
            intro c hc
            rw [← hn]
            exact readVerifyOutput_ok cs m hv c hc
    · simp only [checkReaderOpen, hopen, if_pos, if_true] at h
      cases h
  · intro cs hopen hloop c1 h1 c2 h2 hne
    unfold read
    simp only [checkImageFileOpen, checkReaderOpen, hopen, not_true, if_neg,
      if_false]
    rw [hloop]
    simp only []
    rw [readVerifyOutput_mismatch cs c1 h1 c2 h2 hne]

/-- Witness for C3 at concrete inputs: a channel-free reader reads 0
records successfully (all zero channels trivially agree), and the
two-channel reader whose drained cursors are 0 and 1 makes `read()` fail
with the fatal `Internal` error. -/
theorem read_returns_common_record_count_witness :
    (∀ c ∈ sampleOpenReader.channels, c.dbufNextIndex = 0) ∧
    read skewDecoder allDataFile true 1 mismatchReader
      = some (.error .internal) := by
  constructor
  · exact (read_returns_common_record_count unitDecoder allDataFile true 1
      sampleOpenReader).1 0 sampleOpenReader rfl
  · exact (read_returns_common_record_count skewDecoder allDataFile true 1
      mismatchReader).2
      [sampleChannel 0 100 true,
        { sampleChannel 1 100 true with dbufNextIndex := 1 }]
      rfl rfl
      (sampleChannel 0 100 true) (by simp)
      ({ sampleChannel 1 100 true with dbufNextIndex := 1 }) (by simp)
      (by decide)

/-! ## C7: rebinding buffers across reads -/

theorem checkCompatible_of_compat (oldBuf newBuf : SDB)
    (h : sdbCompatible oldBuf newBuf) :
    checkCompatible oldBuf newBuf = .ok () := by
  unfold checkCompatible
  rw [if_pos h]

theorem checkCompatible_of_incompat (oldBuf newBuf : SDB)
    (h : ¬ sdbCompatible oldBuf newBuf) :
    checkCompatible oldBuf newBuf = .error .buffersNotCompatible := by
  unfold checkCompatible
  rw [if_neg h]

theorem checkCompatible_error_eq (oldBuf newBuf : SDB) (e : E57Error)
    (h : checkCompatible oldBuf newBuf = .error e) :
    e = .buffersNotCompatible := by
  unfold checkCompatible at h
  by_cases hc : sdbCompatible oldBuf newBuf
  · rw [if_pos hc] at h
    cases h
  · rw [if_neg hc] at h
    injection h with h1
    exact h1.symm

theorem checkCompatiblePairs_ok {olds news : List SDB}
    (h : List.Forall₂ sdbCompatible olds news) :
    checkCompatiblePairs olds news = .ok () := by
  induction h with
  | nil => rfl
  | cons hrel _ ih =>
    unfold checkCompatiblePairs
    rw [checkCompatible_of_compat _ _ hrel]
    exact ih

theorem checkCompatiblePairs_error :
    ∀ (olds news : List SDB) (i : Nat) (h1 : i < olds.length)
      (h2 : i < news.length),
      ¬ sdbCompatible (olds.get ⟨i, h1⟩) (news.get ⟨i, h2⟩) →
      checkCompatiblePairs olds news = .error .buffersNotCompatible := by
  intro olds
  induction olds with
  | nil => intro news i h1; exact absurd h1 (Nat.not_lt_zero i)
  | cons o os ih =>
    intro news i h1 h2
    cases news with
    | nil => exact absurd h2 (Nat.not_lt_zero i)
    | cons n ns =>
      intro hinc
      unfold checkCompatiblePairs
      cases i with
      | zero =>
        rw [checkCompatible_of_incompat o n hinc]
      | succ j =>
        cases hcc : checkCompatible o n with
        | error e =>
          have he := checkCompatible_error_eq o n e hcc
          subst he
          rfl
        | ok u =>
          cases u
          exact ih ns j (Nat.lt_of_succ_lt_succ h1) (Nat.lt_of_succ_lt_succ h2)
            hinc

/-- C7: `read(dbufs)` (part_001:205-216) always routes the new list through
`setBuffers` (part_001:175-203), which re-runs `checkBuffers` and — because
a list is already bound — compares old and new element-wise with
`checkCompatible`: a size change raises `BuffersNotCompatible`; an
incompatibility (path, representation, capacity or stride) at any index
raises `BuffersNotCompatible`; and a list that only changes buffer
pointers is accepted, becomes the bound `dbufs_`, and the call proceeds as
`read()` on the rebound state. -/
theorem read_rebind_buffers_check (σ : Type) (M : DecoderModel σ)
    (file : PacketFile) (imageFileIsOpen : Bool) (fuel : Nat)
    (protoTerminals : List String) (st : ReaderState σ) (dbufs : List SDB)
    (hopen : st.isOpen = true) (hne : st.dbufs ≠ [])
    (hcb : checkBuffers protoTerminals dbufs true = .ok ()) :
    (st.dbufs.length ≠ dbufs.length →
      readWithBuffers M file imageFileIsOpen fuel protoTerminals st dbufs
        = some (.error .buffersNotCompatible)) ∧
    (∀ (i : Nat) (h1 : i < st.dbufs.length) (h2 : i < dbufs.length),
      ¬ sdbCompatible (st.dbufs.get ⟨i, h1⟩) (dbufs.get ⟨i, h2⟩) →
      st.dbufs.length = dbufs.length →
      readWithBuffers M file imageFileIsOpen fuel protoTerminals st dbufs
        = some (.error .buffersNotCompatible)) ∧
    (List.Forall₂ sdbCompatible st.dbufs dbufs →
      setBuffers protoTerminals st.dbufs dbufs = .ok dbufs ∧
      readWithBuffers M file imageFileIsOpen fuel protoTerminals st dbufs
        = read M file imageFileIsOpen fuel { st with dbufs := dbufs }) := by
  have hempty : st.dbufs.isEmpty = false := by
    cases hd : st.dbufs with
    | nil => exact absurd hd hne
    | cons a l => rfl
  refine ⟨?_, ?_, ?_⟩
  · intro hlen
    unfold readWithBuffers
    simp only [checkReaderOpen, hopen, not_true, if_neg, if_false]
    unfold setBuffers
    rw [hcb, hempty]
    simp only [Bool.false_eq_true, if_false, if_pos hlen]
  · intro i h1 h2 hinc hlen
    unfold readWithBuffers
    simp only [checkReaderOpen, hopen, not_true, if_neg, if_false]
    unfold setBuffers
    rw [hcb, hempty]
    simp only [Bool.false_eq_true, if_false, if_neg (not_not_intro hlen)]
    rw [checkCompatiblePairs_error st.dbufs dbufs i h1 h2 hinc]
  · intro hcompat
    have hsb : setBuffers protoTerminals st.dbufs dbufs = .ok dbufs := by
      unfold setBuffers
      rw [hcb, hempty]
      have hlen : st.dbufs.length = dbufs.length := hcompat.length_eq
      simp only [Bool.false_eq_true, if_false, if_neg (not_not_intro hlen)]
      rw [checkCompatiblePairs_ok hcompat]
    refine ⟨hsb, ?_⟩
    unfold readWithBuffers
    simp only [checkReaderOpen, hopen, not_true, if_neg, if_false]
    rw [hsb]

/-- Witness for C7 at concrete inputs: rebinding with a shorter list fails
with `BuffersNotCompatible`; rebinding with a capacity change at index 1
fails with `BuffersNotCompatible`; rebinding with only the buffer pointers
changed is accepted and binds the new list. -/
theorem read_rebind_buffers_check_witness :
    readWithBuffers unitDecoder allDataFile true 1 ["cartesianX", "cartesianY"]
      boundReader [sdbX] = some (.error .buffersNotCompatible) ∧
    readWithBuffers unitDecoder allDataFile true 1 ["cartesianX", "cartesianY"]
      boundReader [sdbX, { sdbY with capacity := 2 }]
      = some (.error .buffersNotCompatible) ∧
    setBuffers ["cartesianX", "cartesianY"] boundReader.dbufs
      [{ sdbX with buffer := 3000 }, { sdbY with buffer := 4000 }]
      = .ok [{ sdbX with buffer := 3000 }, { sdbY with buffer := 4000 }] := by
  refine ⟨?_, ?_, ?_⟩
  · exact (read_rebind_buffers_check Unit unitDecoder allDataFile true 1
      ["cartesianX", "cartesianY"] boundReader [sdbX] rfl (by decide)
      rfl).1 (by decide)
  · exact (read_rebind_buffers_check Unit unitDecoder allDataFile true 1
      ["cartesianX", "cartesianY"] boundReader [sdbX, { sdbY with capacity := 2 }]
      rfl (by decide) rfl).2.1 1 (by decide) (by decide) (by decide)
      (by decide)
  · exact ((read_rebind_buffers_check Unit unitDecoder allDataFile true 1
      ["cartesianX", "cartesianY"] boundReader
      [{ sdbX with buffer := 3000 }, { sdbY with buffer := 4000 }]
      rfl (by decide) rfl).2.2
      (List.Forall₂.cons (by decide)
        (List.Forall₂.cons (by decide) List.Forall₂.nil))).1

end E57
